import Mathlib

/-!
Shallow embedding of cjworkbench's module-execution façade
(`server/models/loaded_module.py`), the sort module's parameter migration
(`server/modules/sort.py`), the cached-render-result serializer
(`server/serializers.py`) and the paginated render JSON helper
(`server/views/WfModule.py`), together with theorems checking the
natural-language specification against the code.

Conventions: Python exceptions are modelled with `Except`; a function that
can raise returns `Except Exc α`.  In-place mutation (`truncate_in_place…`)
is modelled by returning the updated value.  Classes that live outside the
embedded files (pandas, `ProcessResult`, `Params`, `ParamDTypeDict`) are
modelled from the spec, as marked on each definition.
-/

/-- A traceback frame as produced by `traceback.extract_tb`: a file path and
a line number. -/
structure Frame where
  path : String
  line : Nat
deriving DecidableEq

/-- A Python exception value: its type name, its message (`str(err)`) and
the traceback frames of its raise site, outermost call first, starting at
the exception's own code (the catching façade prepends its call-site frame
when it inspects `sys.exc_info()`). -/
structure Exc where
  name : String
  msg : String
  frames : List Frame
deriving DecidableEq

/-- The shape of a pandas DataFrame.  The execution-façade claims depend
only on the shape (`table.shape`) of the tables involved, so the model
keeps just that. -/
structure DataFrame where
  nrows : Nat
  ncols : Nat
deriving DecidableEq

/-- `pd.DataFrame()`, the empty table. -/
def emptyDataFrame : DataFrame := ⟨0, 0⟩

/-- Modelled from the spec: `ProcessResult` (its class lives in
`server/modules/types.py`, which is not under src/) — a table plus an
optional error string.  The auxiliary JSON blob is not needed by any claim.
`ProcessResult(error=e)` leaves the dataframe empty. -/
structure ProcessResult where
  dataframe : DataFrame := emptyDataFrame
  error : String := ""
deriving DecidableEq

/-- A Python value as stored in module parameter dictionaries: strings,
integers, booleans, lists, and string-keyed dicts kept in insertion order
(Python dicts preserve insertion order). -/
inductive PyVal where
  | str (v : String)
  | int (v : Int)
  | bool (v : Bool)
  | list (vs : List PyVal)
  | dict (entries : List (String × PyVal))

/-- Python dict membership `k in d`. -/
def dictContains (d : List (String × α)) (k : String) : Bool :=
  d.any (fun e => e.1 = k)

/-- Python dict subscript `d[k]`, `none` when the key is absent (the caller
decides whether that is a `KeyError`). -/
def dictGet (d : List (String × α)) (k : String) : Option α :=
  match d with
  | [] => none
  | e :: rest => if e.1 = k then some e.2 else dictGet rest k

/-- Python dict assignment `d[k] = v`: replace the entry in place when the
key exists, append otherwise. -/
def dictSet (d : List (String × α)) (k : String) (v : α) : List (String × α) :=
  match d with
  | [] => [(k, v)]
  | e :: rest => if e.1 = k then (k, v) :: rest else e :: dictSet rest k v

/-- Modelled from the spec: `Params` (`server/models/Params.py` is not under
src/).  The only operation the façade uses is `to_painful_dict(table)`,
which resolves the parameter tree against the input table's columns; it is
modelled as an abstract total function carried by the value. -/
structure Params where
  to_painful_dict : Option DataFrame → List (String × PyVal)

/-- Modelled from the spec: the raw return shapes `ProcessResult.coerce`
accepts — a DataFrame, a `(table, error)` pair, a bare error string, an
already-built `ProcessResult` — plus `.unsupported` for any other shape,
carrying the exception `coerce` raises on it. -/
inductive RawRet where
  | dataframe (df : DataFrame)
  | pair (df : DataFrame) (error : String)
  | errorString (error : String)
  | processResult (pr : ProcessResult)
  | unsupported (excRaised : Exc)
deriving DecidableEq

/-- Modelled from the spec: `ProcessResult.coerce` normalizes the accepted
shapes into the canonical form and raises on any other shape (the raise is
caught by the `render` façade, but not by `fetch`). -/
def ProcessResult.coerce : RawRet → Except Exc ProcessResult
  | .dataframe df => .ok { dataframe := df }
  | .pair df e => .ok { dataframe := df, error := e }
  | .errorString e => .ok { error := e }
  | .processResult pr => .ok pr
  | .unsupported e => .error e

/-- Modelled from the spec: the configured maximum row count used by
`truncate_in_place_if_too_big`. -/
def MAX_ROWS : Nat := 1000000

/-- Modelled from the spec: truncation drops excess rows in place and keeps
the result otherwise valid — a silently degraded success, so the error
field is untouched. -/
def ProcessResult.truncate_in_place_if_too_big (pr : ProcessResult) : ProcessResult :=
  if pr.dataframe.nrows > MAX_ROWS then
    { pr with dataframe := { pr.dataframe with nrows := MAX_ROWS } }
  else pr

/-- Modelled from the spec: sanitization normalizes column dtypes and
scrubs incompatible values in place; on the shape-level table model it
changes neither the shape nor the error field. -/
def ProcessResult.sanitize_in_place (pr : ProcessResult) : ProcessResult := pr

/-- Characters of the final slash-separated path component: scan the
characters, restarting the accumulator after each slash. -/
def basenameAux (acc : List Char) : List Char → List Char
  | [] => acc.reverse
  | c :: rest =>
    if c = ('/') then basenameAux [] rest else basenameAux (c :: acc) rest

/-- `os.path.split(path)[1]`: the final component of a slash-separated
path. -/
def basename (path : String) : String :=
  String.mk (basenameAux [] path.data)

/-- `LoadedModule._wrap_exception` (loaded_module.py lines 130-142), given
the full traceback `tb` captured at the catch site, façade frame first.  It
uses `extract_tb(exc_tb)[1]` — the second frame, the module's own code.
When the traceback has fewer than two frames that subscript itself raises
`IndexError`, which the embedding surfaces as an error. -/
def wrap_exception (excName excMsg : String) (tb : List Frame) : Except Exc ProcessResult :=
  match tb.get? 1 with
  | some fr =>
    let fname := basename fr.path
    let lineno := fr.line
    .ok { error := s!"{excName}: {excMsg} at line {lineno} of {fname}" }
  | none => .error ⟨("IndexError"), ("list index out of range"), tb⟩

/-- One positional argument of a module's `render` implementation: internal
modules receive `(params, table)`, external modules `(table, painful_dict)`
(loaded_module.py lines 159-163). -/
inductive RenderArg where
  | table (t : Option DataFrame)
  | params (p : Params)
  | painful (d : List (String × PyVal))

/-- A module's `render` implementation as seen through
`inspect.getfullargspec`: whether it has a `**kwargs` catch-all, its
keyword-only argument names, and its behaviour on the two positional
arguments plus the `fetch_result` keyword argument (`none` when the façade
did not forward it).  It returns a raw value or raises. -/
structure RenderImpl where
  varkw : Bool
  kwonlyargs : List String
  run : RenderArg → RenderArg → Option (Option ProcessResult) → Except Exc RawRet

/-- The first argument of a `fetch` implementation: the `Params` object for
internal modules, or the painful dict for external modules. -/
inductive FetchParamsArg where
  | params (p : Params)
  | painful (d : List (String × PyVal))

/-- A module's `fetch` implementation.  `is_coroutine` is
`inspect.iscoroutinefunction(fetch_impl)` (loaded_module.py line 241),
deciding whether the façade awaits it directly or runs it on the executor.
`calls` is the number of times the implementation invokes the
`get_input_dataframe` supplier it was handed (irrelevant when the façade
forwards none); `run` receives the params argument, the forwarded
`workflow_id` (when declared) and the list of values its supplier
invocations returned.  `get_stored_dataframe` and `get_workflow_owner` are
forwarded verbatim and touched by no claim, so they are not modelled.  A
`none` result is Python's `None` ("no new data"). -/
structure FetchImpl where
  is_coroutine : Bool
  varkw : Bool
  kwonlyargs : List String
  calls : Nat
  run : FetchParamsArg → Option Nat → List (Option DataFrame) → Except Exc (Option RawRet)

/-- `LoadedModule.__init__` (loaded_module.py lines 117-128): module id,
version, external flag and the three implementation callables
(`migrate_params_impl` optional).  The derived `name` field appears only in
log lines and is not modelled. -/
structure LoadedModule where
  module_id_name : String
  version_sha1 : String
  is_external : Bool := true
  render_impl : RenderImpl
  fetch_impl : FetchImpl
  migrate_params_impl : Option (PyVal → Except Exc PyVal) := none

/-- The façade's call-site frame for `out = self.render_impl(...)`
(loaded_module.py line 175), the first frame of any traceback caught in
`render`. -/
def renderCallFrame : Frame := ⟨("server/models/loaded_module.py"), 175⟩

/-- The façade's call-site frame for `out = ProcessResult.coerce(out)`
(loaded_module.py line 181). -/
def coerceCallFrame : Frame := ⟨("server/models/loaded_module.py"), 181⟩

/-- The façade's call-site frame for `out = await future_result`
(loaded_module.py line 249) in `fetch`. -/
def fetchAwaitFrame : Frame := ⟨("server/models/loaded_module.py"), 249⟩

/-- The traceback frames the `loop.run_in_executor` machinery inserts
between the façade's await frame and the module's own frames when a
non-coroutine `fetch` implementation raises in a worker thread.  The exact
set varies with the interpreter (`concurrent.futures` `thread.py`
`_WorkItem.run`, which captured the exception in the worker, plus
`Future.result`/`Future.__await__` frames when asyncio's pure-Python
`Future` is in use), but it always starts with executor code and never
with the module's code; it is modelled as the worker-thread call-site
frame. -/
def executorFrames : List Frame :=
  [⟨("concurrent/futures/thread.py"), 56⟩]

/-- The exception Python raises while evaluating `table.shape[0]` in the
log call at the end of `render` (loaded_module.py line 193) when `table` is
`None`: arguments of `logger.info` are evaluated eagerly, before the call,
whatever the log level. -/
def noneShapeAttributeError : Exc :=
  ⟨("AttributeError"), ("NoneType object has no attribute shape"),
   [⟨("server/models/loaded_module.py"), 193⟩]⟩

/-- `LoadedModule.render` (loaded_module.py lines 144-196).  Exceptions
from the implementation and from coercion are wrapped through
`_wrap_exception` (the wrapped result of the first try is itself fed to
`coerce`, as in the source); truncation and sanitization run
unconditionally; the final log line evaluates `table.shape`, which raises
`AttributeError` when `table` is `None`.  The `Except` return type records
whether the call raised. -/
def LoadedModule.render (lm : LoadedModule) (params : Params)
    (table : Option DataFrame) (fetch_result : Option ProcessResult) :
    Except Exc ProcessResult :=
  let arg1 : RenderArg :=
    if lm.is_external then RenderArg.table table else RenderArg.params params
  let arg2 : RenderArg :=
    if lm.is_external then RenderArg.painful (params.to_painful_dict table)
    else RenderArg.table table
  let fetchKwarg : Option (Option ProcessResult) :=
    if lm.render_impl.varkw || lm.render_impl.kwonlyargs.contains ("fetch_result") then
      some fetch_result
    else
      none
  do
    let out1 : RawRet ←
      match lm.render_impl.run arg1 arg2 fetchKwarg with
      | .ok raw => pure raw
      | .error err =>
        (wrap_exception err.name err.msg (renderCallFrame :: err.frames)).map
          RawRet.processResult
    let out2 : ProcessResult ←
      match ProcessResult.coerce out1 with
      | .ok pr => pure pr
      | .error err =>
        wrap_exception err.name err.msg (coerceCallFrame :: err.frames)
    let out := out2.truncate_in_place_if_too_big.sanitize_in_place
    match table with
    | some _ => pure out
    | none => Except.error noneShapeAttributeError

/-- `LoadedModule.fetch` (loaded_module.py lines 198-268), with the
asynchronous suppliers resolved against `input_df`, the value the caller's
`get_input_dataframe` produces.  The second component counts invocations of
the original `get_input_dataframe` supplier during the call: for external
modules the façade awaits it once up front and replaces the forwarded
kwarg by a lambda returning the already-awaited future (lines 226-237), so
implementation calls do not reach the original supplier and are handed the
resolved value.  The coroutine/executor split (lines 241-246) decides the
traceback caught at `await future_result`: a coroutine implementation
raises straight into the await, so the caught frames are the façade frame
followed by the module's own, while a non-coroutine implementation runs on
the executor and its exception arrives with `executorFrames` between the
two — `_wrap_exception`'s second frame is then executor machinery, not
module code.  `coerce` is not inside a try/except in `fetch`, so a
coercion failure propagates. -/
def LoadedModule.fetch (lm : LoadedModule) (params : Params)
    (workflow_id : Nat) (input_df : Option DataFrame) :
    Except Exc (Option ProcessResult) × Nat :=
  let fi := lm.fetch_impl
  let wantsWorkflowId := fi.varkw || fi.kwonlyargs.contains ("workflow_id")
  let wantsInputDf := fi.varkw || fi.kwonlyargs.contains ("get_input_dataframe")
  let workflowIdKwarg := if wantsWorkflowId then some workflow_id else none
  let paramsArg : FetchParamsArg :=
    if lm.is_external then
      FetchParamsArg.painful (params.to_painful_dict (some (input_df.getD emptyDataFrame)))
    else
      FetchParamsArg.params params
  let supplierResults : List (Option DataFrame) :=
    if wantsInputDf then List.replicate fi.calls input_df else []
  let supplierInvocations : Nat :=
    if lm.is_external then 1
    else if wantsInputDf then fi.calls else 0
  let outcome : Except Exc (Option ProcessResult) :=
    do
      let out1 : Option RawRet ←
        match fi.run paramsArg workflowIdKwarg supplierResults with
        | .ok rawOpt => pure rawOpt
        | .error err =>
          let caught_tb :=
            if fi.is_coroutine then fetchAwaitFrame :: err.frames
            else fetchAwaitFrame :: (executorFrames ++ err.frames)
          (wrap_exception err.name err.msg caught_tb).map
            (fun pr => some (RawRet.processResult pr))
      match out1 with
      | none => pure none
      | some raw => do
        let pr ← ProcessResult.coerce raw
        pure (some pr.truncate_in_place_if_too_big.sanitize_in_place)
  (outcome, supplierInvocations)

/-- `DeletedModule.render` (loaded_module.py lines 96-99): log and return
an error result; the body cannot raise. -/
def DeletedModule.render (params : Params) (table : Option DataFrame)
    (fetch_result : Option ProcessResult) : Except Exc ProcessResult :=
  .ok { error := "Cannot render: module was deleted" }

/-- `DeletedModule.fetch` (loaded_module.py lines 101-111): return an error
result; no supplier is ever invoked (the second component is the
invocation count, as in `LoadedModule.fetch`). -/
def DeletedModule.fetch (params : Params) (workflow_id : Nat)
    (input_df : Option DataFrame) : Except Exc ProcessResult × Nat :=
  (.ok { error := "Cannot fetch: module was deleted" }, 0)

/-- `ModuleVersion` fields used by the loader (`id_name`,
`source_version_hash`, `last_update_time`); timestamps are modelled as
naturals. -/
structure ModuleVersion where
  id_name : String
  source_version_hash : String
  last_update_time : Nat

/-- The outcome of `LoadedModule.for_module_version_sync`: the
`DeletedModule` sentinel or a `LoadedModule`. -/
inductive ResolvedModule where
  | deleted
  | loaded (lm : LoadedModule)

/-- `LoadedModule.for_module_version_sync` (loaded_module.py lines
309-352).  The `None` branch returns `DeletedModule()`.  The non-`None`
branch — static-module lookup, external loading, `getattr` defaults — is
abstracted as the `resolveExisting` argument, since no claim depends on
its internals. -/
def for_module_version_sync (resolveExisting : ModuleVersion → ResolvedModule)
    (module_version : Option ModuleVersion) : ResolvedModule :=
  match module_version with
  | none => ResolvedModule.deleted
  | some mv => resolveExisting mv

/-- Modelled from the spec: a `ParamDTypeDict` schema
(`server/models/param_field.py` is not under src/) as `migrate_params` uses
it: `validate(v)` raises `ValueError(msg)` exactly when `validateError v`
is `some msg`, and `coerce` normalizes values, filling defaults. -/
structure ParamSchema where
  validateError : PyVal → Option String
  coerce : PyVal → PyVal

/-- A raised `ValueError` together with its argument tuple.
`ValueError(err)` has one argument — the original exception, represented
by its message; `ValueError(fmt, detail)` has two. -/
structure ValueErrorArgs where
  args : List String
deriving DecidableEq

/-- `LoadedModule.migrate_params` (loaded_module.py lines 291-307): with a
`migrate_params_impl`, run it (any exception re-raised as `ValueError`
around the original exception) and validate the migrated values (a
validation `ValueError` re-raised as a `ValueError` whose arguments are the
format string and the detail — the source passes two arguments to
`ValueError` and never interpolates them); without one, return
`schema.coerce(values)` with no validation step. -/
def LoadedModule.migrate_params (lm : LoadedModule) (schema : ParamSchema)
    (values : PyVal) : Except ValueErrorArgs PyVal :=
  match lm.migrate_params_impl with
  | some impl =>
    match impl values with
    | .error err => .error ⟨[err.msg]⟩
    | .ok migrated =>
      match schema.validateError migrated with
      | some detail => .error ⟨[("migrate_params() gave bad output: %s"), detail]⟩
      | none => .ok migrated
  | none => .ok (schema.coerce values)

/-- `settings.IMPORTED_MODULES_ROOT`, modelled as a fixed root path. -/
def IMPORTED_MODULES_ROOT : String := "importedmodules"

/-- The `os.path.join` building `path_to_code` (loaded_module.py lines
360-364). -/
def path_to_code (module_id_name version_sha1 : String) : String :=
  IMPORTED_MODULES_ROOT ++ ("/") ++ module_id_name ++ ("/") ++ version_sha1

/-- Python `str.endswith(suffix)`, computed on the character lists. -/
def pyEndsWith (s suffix : String) : Bool :=
  List.isSuffixOf suffix.data s.data

/-- The file-selection loop of `_load_external_module_uncached`
(loaded_module.py lines 369-375): skip `setup.py`, stop at the first file
ending in `.py`, in directory-listing order. -/
def findPythonFile : List String → Option String
  | [] => none
  | f :: rest =>
    if f = "setup.py" then findPythonFile rest
    else if pyEndsWith f (".py") then some f
    else findPythonFile rest

/-- The `ValueError` raised by the for-else of
`_load_external_module_uncached` (loaded_module.py line 377). -/
def noPyFileError (module_id_name version_sha1 : String) : Exc :=
  let dir := path_to_code module_id_name version_sha1
  ⟨("ValueError"), s!"Expected .py file in {dir}",
   [⟨("server/models/loaded_module.py"), 377⟩]⟩

/-- `_load_external_module_uncached` (loaded_module.py lines 355-387): pick
the code file from the directory listing or raise the for-else
`ValueError`.  Executing the found file is assumed to succeed (the
function's documented assumption) and produces a fresh in-memory module
object, identified by `freshId`. -/
def _load_external_module_uncached (module_id_name version_sha1 : String)
    (listing : List String) (freshId : Nat) : Except Exc Nat :=
  match findPythonFile listing with
  | some _ => .ok freshId
  | none => .error (noPyFileError module_id_name version_sha1)

/-- The process-wide cache `load_external_module._cache`, mapping
`module_id_name` to `((version_sha1, last_update_time), module object)`,
plus instrumentation for the claims: `nextId` yields the identity of each
freshly loaded module object and `loads` counts disk loads. -/
structure ModuleCache where
  cache : List (String × ((String × Nat) × Nat))
  nextId : Nat := 0
  loads : Nat := 0

/-- `load_external_module` (loaded_module.py lines 390-423): return the
cached module object when the cached `(version_sha1, last_update_time)`
condition matches (`cache.get(name, (None, None))` makes a missing entry a
mismatch), otherwise load from disk and replace the cache entry.
`listing` is the directory listing for `(module_id_name, version_sha1)`. -/
def load_external_module (module_id_name version_sha1 : String)
    (last_update_time : Nat) (listing : List String) (mc : ModuleCache) :
    Except Exc (Nat × ModuleCache) :=
  let cache_condition := (version_sha1, last_update_time)
  let hit : Option Nat :=
    match dictGet mc.cache module_id_name with
    | some (cached_condition, cached_value) =>
      if cached_condition = cache_condition then some cached_value else none
    | none => none
  match hit with
  | some cached_value => .ok (cached_value, mc)
  | none =>
    match _load_external_module_uncached module_id_name version_sha1 listing mc.nextId with
    | .error e => .error e
    | .ok value =>
      .ok (value,
        { cache := dictSet mc.cache module_id_name (cache_condition, value),
          nextId := mc.nextId + 1,
          loads := mc.loads + 1 })

/-- A `CachedRenderResult` row as the serializer reads it: the recorded
`delta_id`, and the two reads that touch the backing file — the column
metadata (name and type per column) and the row count — either of which
raises `FileNotFoundError` (modelled as `Except Unit`) when the bytes are
gone from disk. -/
structure CachedRenderResult where
  delta_id : Int
  columnsOnDisk : Except Unit (List (String × String))
  lenOnDisk : Except Unit Nat

/-- The `WfModule` fields `get_cached_render_result_data` consults. -/
structure WfModuleRecord where
  cached_render_result : Option CachedRenderResult
  last_relevant_delta_id : Int

/-- The serialized cached-render-result fields. -/
structure CachedRenderResultData where
  cached_render_result_delta_id : Option Int
  output_columns : Option (List (String × String))
  output_n_rows : Option Nat
deriving DecidableEq

/-- `WfModuleSerializer.get_cached_render_result_data` (serializers.py
lines 106-132): an absent or stale cached result serializes as all-`None`;
a `FileNotFoundError` during either read leaves exactly the fields
assigned before the raise.  Line 123 of the source is an annotation
statement, not an assignment, so `cached_render_result_delta_id` is never
set. -/
def get_cached_render_result_data (wfm : WfModuleRecord) : CachedRenderResultData :=
  let data : CachedRenderResultData := ⟨none, none, none⟩
  match wfm.cached_render_result with
  | none => data
  | some cached_result =>
    if cached_result.delta_id ≠ wfm.last_relevant_delta_id then data
    else
      match cached_result.columnsOnDisk with
      | .error _ => data
      | .ok columns =>
        match cached_result.lenOnDisk with
        | .error _ => { data with output_columns := some columns }
        | .ok n =>
          { data with output_columns := some columns, output_n_rows := some n }

/-- Python `x == 2` on a legacy parameter value: only the integer 2
compares equal (Python booleans equal 0 or 1, never 2; legacy `direction`
values carry no floats). -/
def pyEqualsTwo : PyVal → Bool
  | .int n => n = 2
  | _ => false

/-- `sort._migrate_params_v0_to_v1` (sort.py lines 83-108): rebuild the
params as a single-entry `sort_columns` list; `is_ascending` is
`params[direction] != 2`.  A missing `column` or `direction` key raises
`KeyError`, as Python subscripting does. -/
def _migrate_params_v0_to_v1 (params : List (String × PyVal)) :
    Except Exc (List (String × PyVal)) :=
  match dictGet params ("column") with
  | none => .error ⟨("KeyError"), ("column"), []⟩
  | some column =>
    match dictGet params ("direction") with
    | none => .error ⟨("KeyError"), ("direction"), []⟩
    | some direction =>
      .ok [(("sort_columns"),
            PyVal.list [PyVal.dict
              [(("colname"), column),
               (("is_ascending"), PyVal.bool (!pyEqualsTwo direction))]])]

/-- `sort._migrate_params_v1_to_v2` (sort.py lines 111-133): add an empty
`keep_top`. -/
def _migrate_params_v1_to_v2 (params : List (String × PyVal)) :
    List (String × PyVal) :=
  dictSet params ("keep_top") (PyVal.str (""))

/-- `sort.migrate_params` (sort.py lines 136-143); named `SortModule` here
because `sort` collides with Lean vocabulary. -/
def SortModule.migrate_params (params : List (String × PyVal)) :
    Except Exc (List (String × PyVal)) := do
  let params ←
    if !dictContains params ("sort_columns") then
      _migrate_params_v0_to_v1 params
    else
      pure params
  let params :=
    if !dictContains params ("keep_top") then
      _migrate_params_v1_to_v2 params
    else
      params
  pure params

/-- A Python slice index normalized for a list of length `n`: a negative
index counts from the end, and the result is clamped to `[0, n]`. -/
def pySliceIndex (n : Nat) (i : Int) : Nat :=
  if i < 0 then ((n : Int) + i).toNat else min i.toNat n

/-- Python list slicing `l[s:e]`. -/
def pySlice (l : List α) (s e : Int) : List α :=
  (l.take (pySliceIndex l.length e)).drop (pySliceIndex l.length s)

/-- The JSON payload assembled by `make_render_json`, field by field; rows
are kept as values rather than a serialized string, and the column names
and simplified column types carry over unchanged from the sliced table, so
they are not modelled. -/
structure RenderJson (α : Type) where
  total_rows : Nat
  start_row : Int
  end_row : Int
  rows : List α
deriving DecidableEq

/-- `make_render_json` (views/WfModule.py lines 162-191): default missing
bounds to `0` and `nrows`, clamp `startrow` from below at 0 and `endrow`
from above at `nrows`, then slice. -/
def make_render_json (table : List α) (startrow endrow : Option Int) :
    RenderJson α :=
  let nrows : Int := table.length
  let startrow0 := startrow.getD 0
  let endrow0 := endrow.getD nrows
  let startrow1 := max 0 startrow0
  let endrow1 := min nrows endrow0
  { total_rows := table.length,
    start_row := startrow1,
    end_row := endrow1,
    rows := pySlice table startrow1 endrow1 }

/-- Truncation and sanitization never change the error field (spec 4.3:
truncation is a silently degraded success, sanitization only rewrites
table values). -/
theorem error_after_postprocess (pr : ProcessResult) :
    (pr.truncate_in_place_if_too_big.sanitize_in_place).error = pr.error := by
  unfold ProcessResult.truncate_in_place_if_too_big ProcessResult.sanitize_in_place
  split <;> rfl

/-- Looking up a key immediately after `dictSet` yields the stored value. -/
theorem dictGet_dictSet_same (d : List (String × α)) (k : String) (v : α) :
    dictGet (dictSet d k v) k = some v := by
  induction d with
  | nil => simp [dictSet, dictGet]
  | cons e rest ih =>
    by_cases h : e.1 = k <;> simp [dictSet, dictGet, h, ih]

/-- Claim C10: resolving a `None` module version yields `DeletedModule`,
whose `render` returns a `ProcessResult` with error
`Cannot render: module was deleted` and whose `fetch` returns one with
error `Cannot fetch: module was deleted`; neither raises and `fetch`
invokes no supplier, for every params, table and fetch result. -/
theorem deleted_module_render_fetch (resolveExisting : ModuleVersion → ResolvedModule)
    (p : Params) (table : Option DataFrame) (fetch_result : Option ProcessResult)
    (workflow_id : Nat) (input_df : Option DataFrame) :
    for_module_version_sync resolveExisting none = ResolvedModule.deleted ∧
    DeletedModule.render p table fetch_result =
      Except.ok { dataframe := emptyDataFrame, error := ("Cannot render: module was deleted") } ∧
    DeletedModule.fetch p workflow_id input_df =
      (Except.ok { dataframe := emptyDataFrame, error := ("Cannot fetch: module was deleted") }, 0) :=
  ⟨rfl, rfl, rfl⟩

/-- Claim C5: a cached render result whose recorded `delta_id` differs from
the owning WfModule's `last_relevant_delta_id` serializes as all-`None`,
whatever `columnsOnDisk` and `lenOnDisk` say about the bytes on disk. -/
theorem stale_cached_render_result_serialized_absent
    (wfm : WfModuleRecord) (cr : CachedRenderResult)
    (hc : wfm.cached_render_result = some cr)
    (hstale : cr.delta_id ≠ wfm.last_relevant_delta_id) :
    get_cached_render_result_data wfm = ⟨none, none, none⟩ := by
  simp [get_cached_render_result_data, hc, hstale]

/-- Witness for C5 at a concrete stale record whose bytes are still on
disk. -/
theorem stale_cached_render_result_serialized_absent_witness :
    get_cached_render_result_data
      ⟨some ⟨3, Except.ok [(("A"), ("number"))], Except.ok 5⟩, 4⟩ =
      ⟨none, none, none⟩ :=
  stale_cached_render_result_serialized_absent
    ⟨some ⟨3, Except.ok [(("A"), ("number"))], Except.ok 5⟩, 4⟩
    ⟨3, Except.ok [(("A"), ("number"))], Except.ok 5⟩
    rfl (by decide)

/-- Claim C9: within one `LoadedModule.fetch` call on an external module
the original `get_input_dataframe` supplier is invoked exactly once — the
façade resolves it before invoking the implementation and short-circuits
the forwarded supplier to the already-resolved future, so implementation
requests never re-invoke it. -/
theorem external_fetch_resolves_input_once
    (lm : LoadedModule) (p : Params) (workflow_id : Nat)
    (input_df : Option DataFrame) (hext : lm.is_external = true) :
    (lm.fetch p workflow_id input_df).2 = 1 := by
  simp [LoadedModule.fetch, hext]

/-- Witness for C9: an external module whose implementation declares
`get_input_dataframe` and would call it three times still leads to a
single invocation of the original supplier. -/
theorem external_fetch_resolves_input_once_witness :
    (LoadedModule.fetch
      { module_id_name := "ext", version_sha1 := "abc", is_external := true,
        render_impl :=
          { varkw := false, kwonlyargs := [],
            run := fun _ _ _ => Except.ok (RawRet.processResult {}) },
        fetch_impl :=
          { is_coroutine := false, varkw := false,
            kwonlyargs := [("get_input_dataframe")], calls := 3,
            run := fun _ _ _ => Except.ok none } }
      ⟨fun _ => []⟩ 7 (some ⟨2, 2⟩)).2 = 1 :=
  external_fetch_resolves_input_once _ _ 7 (some ⟨2, 2⟩) rfl

/-- Claim C7 counterexample: on a module directory with no importable code
file the loader raises `ValueError` — an exception whose type name is not
`ConfigurationError` — so the claim that it raises a `ConfigurationError`
is false on the code (no such exception type exists in the repository). -/
theorem load_no_py_raises_value_error_counterexample :
    _load_external_module_uncached ("mymod") ("abc123") [("setup.py"), ("README.md")] 0 =
      Except.error (noPyFileError ("mymod") ("abc123")) ∧
    (noPyFileError ("mymod") ("abc123")).name = ("ValueError") ∧
    (noPyFileError ("mymod") ("abc123")).name ≠ ("ConfigurationError") := by
  have hfind : findPythonFile [("setup.py"), ("README.md")] = none := by decide
  exact ⟨by simp [_load_external_module_uncached, hfind], rfl, by decide⟩

/-- Claim C7 as amended: when the external-module loader finds no
importable `.py` file (other than `setup.py`) in the directory for
`(module_id_name, version_hash)`, loading fails by raising a `ValueError`
reading `Expected .py file in <directory>`. -/
theorem load_no_py_raises_value_error
    (module_id_name version_sha1 : String) (listing : List String)
    (freshId : Nat) (h : findPythonFile listing = none) :
    _load_external_module_uncached module_id_name version_sha1 listing freshId =
      Except.error (noPyFileError module_id_name version_sha1) := by
  simp [_load_external_module_uncached, h]

/-- Witness for the amended C7, on a directory holding only `setup.py` and
a non-Python asset. -/
theorem load_no_py_raises_value_error_witness :
    _load_external_module_uncached ("mymod") ("v1") [("setup.py"), ("module.html")] 9 =
      Except.error (noPyFileError ("mymod") ("v1")) :=
  load_no_py_raises_value_error ("mymod") ("v1") [("setup.py"), ("module.html")] 9 (by decide)

/-- With no client bounds, `make_render_json` serves the whole table. -/
theorem make_render_json_none_none_rows (l : List α) :
    (make_render_json l none none).rows = l := by
  simp [make_render_json, pySlice, pySliceIndex]
  split
  · omega
  · exact le_refl _

/-- Claim C8 counterexample: `make_render_json` applies no maximum-page-size
clamp — a 400-row table requested without bounds is served whole, 400 rows,
above the 300-row page maximum the claim derives from the spec. -/
theorem make_render_json_no_page_size_clamp :
    (make_render_json (List.replicate 400 (0 : Nat)) none none).rows =
      List.replicate 400 (0 : Nat) ∧
    (make_render_json (List.replicate 400 (0 : Nat)) none none).rows.length = 400 ∧
    300 < 400 := by
  have h := make_render_json_none_none_rows (List.replicate 400 (0 : Nat))
  exact ⟨h, by rw [h, List.length_replicate], by norm_num⟩

/-- Claim C8 as amended: the served row range is clamped to the table only
— no maximum-page-size clamp exists — so the reported `start_row` is at
least 0, the reported `end_row` is at most the row count, the reported
total is the row count, and the returned rows are exactly the Python slice
`table[start_row:end_row]`. -/
theorem make_render_json_clamps (table : List α) (startrow endrow : Option Int) :
    0 ≤ (make_render_json table startrow endrow).start_row ∧
    (make_render_json table startrow endrow).end_row ≤ (table.length : Int) ∧
    (make_render_json table startrow endrow).total_rows = table.length ∧
    (make_render_json table startrow endrow).rows =
      pySlice table (make_render_json table startrow endrow).start_row
        (make_render_json table startrow endrow).end_row := by
  refine ⟨?_, ?_, rfl, rfl⟩
  · simp [make_render_json]
  · simp [make_render_json]

/-- A `Params` whose painful dict is empty; concrete inputs only. -/
def pEmpty : Params := ⟨fun _ => []⟩

/-- A render implementation that returns an empty valid result (declares
`**kwargs`, like `_default_render`). -/
def okRenderImpl : RenderImpl :=
  { varkw := true, kwonlyargs := [],
    run := fun _ _ _ => Except.ok (RawRet.processResult {}) }

/-- A fetch implementation that returns `None` ("no new data"), like
`_default_fetch` — an `async def`, hence a coroutine function. -/
def noopFetchImpl : FetchImpl :=
  { is_coroutine := true, varkw := true, kwonlyargs := [], calls := 0,
    run := fun _ _ _ => Except.ok none }

/-- Claim C1 (code defect): `LoadedModule.render` called with input table
`None` raises `AttributeError` out of the eagerly evaluated
`table.shape[0]` in the final log call (loaded_module.py line 193), even
though the implementation returned a perfectly valid result — contradicting
the claim and the method's own docstring, "This method cannot produce an
exception". -/
theorem render_raises_on_none_table :
    LoadedModule.render
      { module_id_name := "pastecsv", version_sha1 := "internal",
        is_external := false,
        render_impl := okRenderImpl, fetch_impl := noopFetchImpl }
      pEmpty none none = Except.error noneShapeAttributeError := rfl

/-- The error string `_wrap_exception` produces for exception `e` when `fr`
is the second frame of the captured traceback (the module's own code). -/
def wrapped_error_string (e : Exc) (fr : Frame) : String :=
  let excName := e.name
  let excMsg := e.msg
  let lineno := fr.line
  let fname := basename fr.path
  s!"{excName}: {excMsg} at line {lineno} of {fname}"

/-- Claim C2 as amended: when the module implementation raises exception
`e` whose own traceback starts at frame `fr` — making `fr` the second frame
of the full captured traceback, the first being the façade's call site —
`render` (on a non-`None` table), and `fetch` when the implementation is a
coroutine function, return a `ProcessResult` whose error string is
`<ExceptionType>: <message> at line <N> of <file>`, with `N` and `<file>`
taken from `fr`.  (A non-coroutine fetch implementation runs on the
executor, which puts a stdlib frame second — see the counterexample.) -/
theorem exception_wrapped_with_second_frame
    (lm : LoadedModule) (p : Params) (df : DataFrame)
    (fetch_result : Option ProcessResult) (workflow_id : Nat)
    (input_df : Option DataFrame) (e : Exc) (fr : Frame) (rest : List Frame)
    (hframes : e.frames = fr :: rest)
    (hrender : ∀ a1 a2 kw, lm.render_impl.run a1 a2 kw = Except.error e)
    (hfetch : ∀ pa wid sup, lm.fetch_impl.run pa wid sup = Except.error e)
    (hcoro : lm.fetch_impl.is_coroutine = true) :
    (∃ pr, lm.render p (some df) fetch_result = Except.ok pr ∧
      pr.error = wrapped_error_string e fr) ∧
    (∃ pr, (lm.fetch p workflow_id input_df).1 = Except.ok (some pr) ∧
      pr.error = wrapped_error_string e fr) := by
  have hwrap : ∀ fa : Frame, wrap_exception e.name e.msg (fa :: e.frames) =
      Except.ok { error := wrapped_error_string e fr } := by
    intro fa
    rw [hframes]
    rfl
  constructor
  · have hr : lm.render p (some df) fetch_result =
        Except.ok (ProcessResult.sanitize_in_place
          (ProcessResult.truncate_in_place_if_too_big
            { error := wrapped_error_string e fr })) := by
      unfold LoadedModule.render
      simp only [hrender, hwrap]
      rfl
    refine ⟨_, hr, ?_⟩
    rw [error_after_postprocess]
  · have hf : (lm.fetch p workflow_id input_df).1 =
        Except.ok (some (ProcessResult.sanitize_in_place
          (ProcessResult.truncate_in_place_if_too_big
            { error := wrapped_error_string e fr }))) := by
      unfold LoadedModule.fetch
      simp only [hfetch, hcoro, if_true, hwrap]
      rfl
    refine ⟨_, hf, ?_⟩
    rw [error_after_postprocess]

/-- The exception of end-to-end scenario 2: a `ZeroDivisionError` raised on
line 10 of the module's own file. -/
def zeroDivExc : Exc :=
  ⟨("ZeroDivisionError"), ("division by zero"), [⟨("mymodule.py"), 10⟩]⟩

/-- An external module whose `render` and `fetch` implementations raise
`zeroDivExc`; its `fetch` is a coroutine function, awaited directly. -/
def zeroDivLM : LoadedModule :=
  { module_id_name := "mymodule", version_sha1 := "deadbeef",
    is_external := true,
    render_impl :=
      { varkw := true, kwonlyargs := [],
        run := fun _ _ _ => Except.error zeroDivExc },
    fetch_impl :=
      { is_coroutine := true, varkw := true, kwonlyargs := [], calls := 0,
        run := fun _ _ _ => Except.error zeroDivExc } }

/-- The same external module with a plain (non-coroutine) `fetch`
implementation raising `zeroDivExc`: the façade runs it via
`loop.run_in_executor`. -/
def zeroDivSyncLM : LoadedModule :=
  { module_id_name := "mymodule", version_sha1 := "deadbeef",
    is_external := true,
    render_impl :=
      { varkw := true, kwonlyargs := [],
        run := fun _ _ _ => Except.error zeroDivExc },
    fetch_impl :=
      { is_coroutine := false, varkw := true, kwonlyargs := [], calls := 0,
        run := fun _ _ _ => Except.error zeroDivExc } }

/-- Witness for C2, end-to-end scenario 2: the error string of the returned
result contains `ZeroDivisionError` and `line 10`. -/
theorem exception_wrapped_with_second_frame_witness :
    (∃ pr, zeroDivLM.render pEmpty (some ⟨5, 2⟩) none = Except.ok pr ∧
      pr.error = ("ZeroDivisionError: division by zero at line 10 of mymodule.py")) ∧
    (∃ pr, (zeroDivLM.fetch pEmpty 1 none).1 = Except.ok (some pr) ∧
      pr.error = ("ZeroDivisionError: division by zero at line 10 of mymodule.py")) := by
  have h := exception_wrapped_with_second_frame zeroDivLM pEmpty ⟨5, 2⟩ none 1 none
    zeroDivExc ⟨("mymodule.py"), 10⟩ [] rfl (fun _ _ _ => rfl) (fun _ _ _ => rfl) rfl
  have hs : wrapped_error_string zeroDivExc ⟨("mymodule.py"), 10⟩ =
      ("ZeroDivisionError: division by zero at line 10 of mymodule.py") := rfl
  rw [hs] at h
  exact h

/-- Claim C2 counterexample: a non-coroutine `fetch` implementation that
raises `ZeroDivisionError` on line 10 of `mymodule.py` is run on the
executor, so the second frame of the traceback caught at the await is the
worker-thread frame in `thread.py` — the returned error string names the
stdlib file and line, not the module's code, and in particular does not
contain `line 10` or `mymodule.py` as the claim requires. -/
theorem fetch_executor_frame_counterexample :
    (zeroDivSyncLM.fetch pEmpty 1 none).1 =
      Except.ok (some
        { dataframe := emptyDataFrame,
          error := ("ZeroDivisionError: division by zero at line 56 of thread.py") }) ∧
    ("ZeroDivisionError: division by zero at line 56 of thread.py") ≠
      ("ZeroDivisionError: division by zero at line 10 of mymodule.py") := by
  exact ⟨rfl, by decide⟩

/-- Claim C3: with a declared `migrate_params_impl`, an implementation
exception is re-raised as a `ValueError` wrapping the original message, and
a schema-validation failure on the migrated values is re-raised as a
`ValueError` that carries the validation detail; with no declared
implementation, the result is `schema.coerce(values)` and no validation
step runs. -/
theorem migrate_params_contract
    (lm : LoadedModule) (schema : ParamSchema) (values migrated : PyVal)
    (impl : PyVal → Except Exc PyVal) (e : Exc) (detail : String) :
    (lm.migrate_params_impl = some impl → impl values = Except.error e →
      lm.migrate_params schema values = Except.error ⟨[e.msg]⟩) ∧
    (lm.migrate_params_impl = some impl → impl values = Except.ok migrated →
      schema.validateError migrated = some detail →
      lm.migrate_params schema values =
        Except.error ⟨[("migrate_params() gave bad output: %s"), detail]⟩) ∧
    (lm.migrate_params_impl = none →
      lm.migrate_params schema values = Except.ok (schema.coerce values)) := by
  refine ⟨?_, ?_, ?_⟩
  · intro h1 h2
    simp [LoadedModule.migrate_params, h1, h2]
  · intro h1 h2 h3
    simp [LoadedModule.migrate_params, h1, h2, h3]
  · intro h1
    simp [LoadedModule.migrate_params, h1]

/-- A schema that accepts everything and coerces by wrapping the value in a
one-entry dict, so coercion is observable. -/
def acceptSchema : ParamSchema :=
  ⟨fun _ => none, fun v => PyVal.dict [(("value"), v)]⟩

/-- A schema whose validation always fails with a fixed detail. -/
def rejectSchema : ParamSchema :=
  ⟨fun _ => some ("not a dict"), fun v => v⟩

/-- A module whose `migrate_params_impl` raises `RuntimeError: boom`. -/
def failingMigrateLM : LoadedModule :=
  { module_id_name := "m1", version_sha1 := "v1",
    render_impl := okRenderImpl, fetch_impl := noopFetchImpl,
    migrate_params_impl := some (fun _ => Except.error ⟨("RuntimeError"), ("boom"), []⟩) }

/-- A module whose `migrate_params_impl` succeeds, returning its input. -/
def identityMigrateLM : LoadedModule :=
  { module_id_name := "m2", version_sha1 := "v2",
    render_impl := okRenderImpl, fetch_impl := noopFetchImpl,
    migrate_params_impl := some (fun v => Except.ok v) }

/-- A module with no `migrate_params_impl`. -/
def noMigrateLM : LoadedModule :=
  { module_id_name := "m3", version_sha1 := "v3",
    render_impl := okRenderImpl, fetch_impl := noopFetchImpl,
    migrate_params_impl := none }

/-- Witness for C3 at concrete modules and schemas: the raising
implementation yields `ValueError(boom)`; valid migration output failing
validation yields the two-argument `ValueError`; no implementation yields
the bare coercion — on `rejectSchema`, whose validation would fail, showing
no validation runs. -/
theorem migrate_params_contract_witness :
    failingMigrateLM.migrate_params acceptSchema (PyVal.int 0) =
      Except.error ⟨[("boom")]⟩ ∧
    identityMigrateLM.migrate_params rejectSchema (PyVal.int 0) =
      Except.error ⟨[("migrate_params() gave bad output: %s"), ("not a dict")]⟩ ∧
    noMigrateLM.migrate_params rejectSchema (PyVal.int 0) =
      Except.ok (rejectSchema.coerce (PyVal.int 0)) := by
  refine ⟨?_, ?_, ?_⟩
  · exact (migrate_params_contract failingMigrateLM acceptSchema (PyVal.int 0)
      (PyVal.int 0) (fun _ => Except.error ⟨("RuntimeError"), ("boom"), []⟩)
      ⟨("RuntimeError"), ("boom"), []⟩ ("d")).1 rfl rfl
  · exact (migrate_params_contract identityMigrateLM rejectSchema (PyVal.int 0)
      (PyVal.int 0) (fun v => Except.ok v)
      ⟨("E"), ("m"), []⟩ ("not a dict")).2.1 rfl rfl rfl
  · exact (migrate_params_contract noMigrateLM rejectSchema (PyVal.int 0)
      (PyVal.int 0) (fun v => Except.ok v)
      ⟨("E"), ("m"), []⟩ ("d")).2.2 rfl

/-- A lookup whose cached condition matches returns the cached object and
leaves the cache state untouched (no disk access). -/
theorem load_external_module_hit (n s : String) (t : Nat) (l : List String)
    (mc : ModuleCache) (v : Nat)
    (h : dictGet mc.cache n = some ((s, t), v)) :
    load_external_module n s t l mc = Except.ok (v, mc) := by
  unfold load_external_module
  simp [h]

/-- After any successful `load_external_module`, the post-state cache maps
the module name to the requested condition and the returned object. -/
theorem load_external_module_post (n s : String) (t : Nat) (l : List String)
    (mc mca : ModuleCache) (v : Nat)
    (h : load_external_module n s t l mc = Except.ok (v, mca)) :
    dictGet mca.cache n = some ((s, t), v) := by
  unfold load_external_module at h
  rcases hg : dictGet mc.cache n with _ | ⟨cond, cv⟩ <;> rw [hg] at h
  · rcases hl : findPythonFile l with _ | f <;>
      simp [_load_external_module_uncached, hl] at h
    rcases h with ⟨hv, hmca⟩
    subst hv
    rw [← hmca]
    simp [dictGet_dictSet_same]
  · by_cases hcond : cond = (s, t)
    · simp [hcond] at h
      rcases h with ⟨hv, hmca⟩
      subst hv
      rw [← hmca, hg, hcond]
    · simp [hcond] at h
      rcases hl : findPythonFile l with _ | f <;>
        simp [_load_external_module_uncached, hl] at h
      rcases h with ⟨hv, hmca⟩
      subst hv
      rw [← hmca]
      simp [dictGet_dictSet_same]

/-- Claim C4: a second `load_external_module` call with the same
`(version_sha1, last_update_time)` returns the identical in-memory object
and leaves the state — including the disk-load counter — unchanged
(whatever the disk now holds); and a call whose condition differs from the
cached pair performs exactly one load (`loads` grows by one, the returned
object is the fresh `nextId`) and replaces that module's cache entry. -/
theorem load_external_module_cache_behaviour
    (module_id_name version_sha1 version_sha1a : String)
    (t ta : Nat) (listing listinga : List String)
    (mc mca : ModuleCache) (v : Nat) :
    (load_external_module module_id_name version_sha1 t listing mc =
        Except.ok (v, mca) →
      load_external_module module_id_name version_sha1 t listinga mca =
        Except.ok (v, mca)) ∧
    (∀ cached, dictGet mc.cache module_id_name = some cached →
      cached.1 ≠ (version_sha1a, ta) →
      ∀ f, findPythonFile listinga = some f →
      load_external_module module_id_name version_sha1a ta listinga mc =
        Except.ok (mc.nextId,
          { cache := dictSet mc.cache module_id_name ((version_sha1a, ta), mc.nextId),
            nextId := mc.nextId + 1,
            loads := mc.loads + 1 })) := by
  constructor
  · intro h
    exact load_external_module_hit _ _ _ _ _ _
      (load_external_module_post _ _ _ listing mc _ _ h)
  · rintro ⟨cond, cv⟩ hg hne f hl
    unfold load_external_module
    simp [hg, hne, _load_external_module_uncached, hl]

/-- Witness for C4: a repeated lookup under condition `(s, 1)` returns the
cached object 0 without touching the state, and a lookup under a changed
condition `(new, 6)` against a cache holding `(old, 5)` loads exactly once
and replaces the entry. -/
theorem load_external_module_cache_behaviour_witness :
    load_external_module ("m") ("s") 1 [("other.txt")]
      ⟨[(("m"), ((("s"), 1), 0))], 1, 1⟩ =
      Except.ok (0, ⟨[(("m"), ((("s"), 1), 0))], 1, 1⟩) ∧
    load_external_module ("m") ("new") 6 [("mod.py")]
      ⟨[(("m"), ((("old"), 5), 7))], 3, 4⟩ =
      Except.ok (3, ⟨[(("m"), ((("new"), 6), 3))], 4, 5⟩) := by
  constructor
  · exact (load_external_module_cache_behaviour ("m") ("s") ("s") 1 1 [("mod.py")]
      [("other.txt")] ⟨[], 0, 0⟩ ⟨[(("m"), ((("s"), 1), 0))], 1, 1⟩ 0).1 (by rfl)
  · exact (load_external_module_cache_behaviour ("m") ("s") ("new") 1 6 [("mod.py")]
      [("mod.py")] ⟨[(("m"), ((("old"), 5), 7))], 3, 4⟩ ⟨[], 0, 0⟩ 0).2
      ((("old"), 5), 7) rfl (by decide) ("mod.py") rfl

/-- Claim C6, end-to-end scenario 3: migrating the legacy v0 parameters
`column=A, direction=2` yields exactly
`sort_columns=[colname=A, is_ascending=false], keep_top=` (empty), and for
any column and any `direction` value not Python-equal to 2 the migrated
`is_ascending` is `true`. -/
theorem sort_migrate_params_v0_scenario :
    SortModule.migrate_params
      [(("column"), PyVal.str ("A")), (("direction"), PyVal.int 2)] =
      Except.ok
        [(("sort_columns"),
          PyVal.list [PyVal.dict [(("colname"), PyVal.str ("A")),
                                  (("is_ascending"), PyVal.bool false)]]),
         (("keep_top"), PyVal.str (""))] ∧
    (∀ column direction : PyVal, pyEqualsTwo direction = false →
      SortModule.migrate_params
        [(("column"), column), (("direction"), direction)] =
        Except.ok
          [(("sort_columns"),
            PyVal.list [PyVal.dict [(("colname"), column),
                                    (("is_ascending"), PyVal.bool true)]]),
           (("keep_top"), PyVal.str (""))]) := by
  constructor
  · rfl
  · intro column direction h
    have hgen : SortModule.migrate_params
        [(("column"), column), (("direction"), direction)] =
        Except.ok
          [(("sort_columns"),
            PyVal.list [PyVal.dict [(("colname"), column),
                                    (("is_ascending"), PyVal.bool (!pyEqualsTwo direction))]]),
           (("keep_top"), PyVal.str (""))] := rfl
    rw [hgen, h]
    rfl

/-- Witness for C6 at `direction = 1` (legacy "Ascending"), a value other
than 2: the migrated `is_ascending` is `true`. -/
theorem sort_migrate_params_v0_scenario_witness :
    SortModule.migrate_params
      [(("column"), PyVal.str ("B")), (("direction"), PyVal.int 1)] =
      Except.ok
        [(("sort_columns"),
          PyVal.list [PyVal.dict [(("colname"), PyVal.str ("B")),
                                  (("is_ascending"), PyVal.bool true)]]),
         (("keep_top"), PyVal.str (""))] :=
  sort_migrate_params_v0_scenario.2 (PyVal.str ("B")) (PyVal.int 1) rfl
